import Mathlib

/-!
Verification of the `wayland_client` NIF bridge (src/native/wayland_client/src/lib.rs).

The Rust source is a rustler NIF library exposing a Wayland client connection to a
host runtime through opaque integer handles.  Its mutable state consists of the
process-wide tables `CONNECTIONS`, `SURFACES`, `REGISTRIES` and the counter
`NEXT_ID`, plus the `Arc<Mutex<HashMap<u32, GlobalInfo>>>` snapshot cells shared
between `AppData` (the dispatch handler state) and `RegistryResource`.

The embedding below passes that state explicitly as a `BridgeState` value.  The
native wayland library (socket connection, event decoding) is modelled by an
oracle record `ConnEnv` supplying the outcomes of the native calls, and by
explicit lists of decoded registry events handed to the dispatch handler.
Machine integers (`u32` ids) are `Nat` reduced modulo `2 ^ 32` where the source
increments them.  Fallible NIF entry points return `Except NifError`.
-/

/-- The atoms declared in the source's `atoms` module. -/
inductive Atom where
  | ok
  | error
  | nil
  | notFound
  | nifNotLoaded
deriving DecidableEq, Repr

/-- The `WaylandError` enum of the source (the `thiserror` variants). -/
inductive WaylandError where
  | connectionFailed (msg : String)
  | protocolError (msg : String)
  | resourceNotFound
  | invalidArgument (msg : String)
  | ioError (msg : String)
deriving DecidableEq, Repr

/-- The `#[error("...")]` display strings attached to each `WaylandError` variant. -/
def WaylandError.message : WaylandError → String
  | .connectionFailed s => "Connection failed: " ++ s
  | .protocolError s => "Protocol error: " ++ s
  | .resourceNotFound => "Resource not found"
  | .invalidArgument s => "Invalid argument: " ++ s
  | .ioError s => "IO error: " ++ s

/-- The rustler boundary error: `Error::Term(Box::new(string))`.  Every error the
host sees is a term carrying a message string. -/
inductive NifError where
  | term (msg : String)
deriving DecidableEq, Repr

/-- The `From<WaylandError> for Error` impl: `Error::Term(Box::new(format!("{}", err)))`. -/
def toNifError (e : WaylandError) : NifError := .term e.message

/-- `GlobalInfo { interface: String, version: u32 }`. -/
structure GlobalInfo where
  interface : String
  version : Nat
deriving DecidableEq, Repr

/-- A `HashMap<u32, GlobalInfo>` snapshot, modelled as an association list. -/
abbrev Snapshot := List (Nat × GlobalInfo)

/-- `HashMap::get`-style lookup on an association list. -/
def tblGet {α : Type} (k : Nat) : List (Nat × α) → Option α
  | [] => none
  | p :: t => if p.1 = k then some p.2 else tblGet k t

/-- `HashMap::remove` on an association list (drops every entry keyed `k`). -/
def tblRemove {α : Type} (k : Nat) : List (Nat × α) → List (Nat × α)
  | [] => []
  | p :: t => if p.1 = k then tblRemove k t else p :: tblRemove k t

/-- `HashMap::insert` on an association list (replaces any existing entry for `k`). -/
def tblInsert {α : Type} (k : Nat) (v : α) (t : List (Nat × α)) : List (Nat × α) :=
  (k, v) :: tblRemove k t

/-- The `wl_registry::Event` cases matched by the `Dispatch` impl for `AppData`:
`Global { name, interface, version }`, `GlobalRemove { name }`, and the wildcard. -/
inductive RegistryEvent where
  | global (name : Nat) (interface : String) (version : Nat)
  | globalRemove (name : Nat)
  | other
deriving DecidableEq, Repr

/-- The body of `impl Dispatch<wl_registry::WlRegistry, ()> for AppData`: a `Global`
event inserts `(name, GlobalInfo)`, a `GlobalRemove` event removes `name`, anything
else is ignored. -/
def applyEvent (s : Snapshot) (e : RegistryEvent) : Snapshot :=
  match e with
  | .global n i v => tblInsert n { interface := i, version := v } s
  | .globalRemove n => tblRemove n s
  | .other => s

/-- One entry of the `CONNECTIONS` table: the native connection (represented by its
raw descriptor) and its event queue (represented by the decoded events waiting in
it). -/
structure ConnState where
  fd : Int
  pending : List RegistryEvent
deriving DecidableEq, Repr

/-- `RegistryResource { registry_id, globals }`: `globals` is an
`Arc<Mutex<HashMap<..>>>` cell, modelled as an index into the snapshot heap. -/
structure RegistryResource where
  registryId : Nat
  globalsRef : Nat
deriving DecidableEq, Repr

/-- `SurfaceResource { surface_id }`. -/
structure SurfaceResource where
  surfaceId : Nat
deriving DecidableEq, Repr

/-- The process-wide mutable state of the bridge: the `CONNECTIONS`, `REGISTRIES`
and `SURFACES` tables, the `NEXT_ID` counter, and the heap of live
`Arc<Mutex<HashMap<u32, GlobalInfo>>>` snapshot cells (`nextCell` names the next
fresh cell). -/
structure BridgeState where
  connections : List (Nat × ConnState)
  registries : List Nat
  surfaces : List Nat
  nextId : Nat
  snapshots : List (Nat × Snapshot)
  nextCell : Nat
deriving DecidableEq, Repr

/-- `u32` modulus for the id counter. -/
def u32Mod : Nat := 2 ^ 32

/-- `get_next_id()`: returns the current `NEXT_ID` and increments it (u32
arithmetic, so the increment wraps at `2 ^ 32`). -/
def get_next_id (id : Nat) : Nat × Nat := (id, (id + 1) % u32Mod)

/-- The initial process state: all tables empty, `NEXT_ID` starting at 1. -/
def initState : BridgeState :=
  { connections := [], registries := [], surfaces := [], nextId := 1,
    snapshots := [], nextCell := 0 }

/-- Oracle for the native wayland library during one `connect_impl` call:
the outcome of `Connection::connect_to_env()`, the outcome of the initial
`event_queue.roundtrip(..)`, the connection's raw descriptor, and the registry
events the server delivers during that initial roundtrip. -/
structure ConnEnv where
  connectResult : Except String Unit
  roundtripResult : Except String Unit
  fd : Int
  initialEvents : List RegistryEvent
deriving Repr

/-- `connect_impl(display_name)`: matches on the optional display name (both arms
call `Connection::connect_to_env()`, mapping failure to `ConnectionFailed`), builds
a fresh local `globals` map, performs the initial roundtrip — dispatching the
server's events into that local map, mapping failure to `ProtocolError` — then
allocates `connection_id = get_next_id()` and stores the connection.  The warmed
local `globals` map is dropped when the function returns: it is not stored in any
resource or table. -/
def connect_impl (name : Option String) (env : ConnEnv) (st : BridgeState) :
    Except NifError Nat × BridgeState :=
  let connRes : Except String Unit :=
    match name with
    | some _ => env.connectResult
    | none => env.connectResult
  match connRes with
  | .error e => (.error (toNifError (.connectionFailed e)), st)
  | .ok _ =>
    let _warm : Snapshot := env.initialEvents.foldl applyEvent []
    match env.roundtripResult with
    | .error e => (.error (toNifError (.protocolError e)), st)
    | .ok _ =>
      let ids := get_next_id st.nextId
      (.ok ids.1,
        { st with
          nextId := ids.2,
          connections := tblInsert ids.1 { fd := env.fd, pending := [] } st.connections })

/-- `connect()`: `connect_impl(None)`. -/
def connect (env : ConnEnv) (st : BridgeState) : Except NifError Nat × BridgeState :=
  connect_impl none env st

/-- `connect_to_display(display_name)`: `connect_impl(Some(display_name))`. -/
def connect_to_display (name : String) (env : ConnEnv) (st : BridgeState) :
    Except NifError Nat × BridgeState :=
  connect_impl (some name) env st

/-- `disconnect(display)`: removes the connection id from `CONNECTIONS` and
returns `ok`, whether or not the entry was present. -/
def disconnect (h : Nat) (st : BridgeState) : Except NifError Atom × BridgeState :=
  (.ok .ok, { st with connections := tblRemove h st.connections })

/-- `is_connected(display)`: `(ok, CONNECTIONS.contains_key(id))`. -/
def is_connected (h : Nat) (st : BridgeState) : Except NifError (Atom × Bool) :=
  .ok (.ok, (tblGet h st.connections).isSome)

/-- `flush_events(display)`: if the connection is present, builds an `AppData`
with a freshly created empty `globals` map, calls `dispatch_pending` on the queue
(which applies every pending decoded event to that fresh map, or fails with
`ProtocolError` when decoding fails — `dispatchErr` is the native outcome), and
discards the map.  If the connection is absent it returns `ok` without error. -/
def flush_events (h : Nat) (dispatchErr : Option String) (st : BridgeState) :
    Except NifError Atom × BridgeState :=
  match tblGet h st.connections with
  | some c =>
    match dispatchErr with
    | some e => (.error (toNifError (.protocolError e)), st)
    | none =>
      let _dispatched : Snapshot := c.pending.foldl applyEvent []
      (.ok .ok,
        { st with connections := tblInsert h { c with pending := [] } st.connections })
  | none => (.ok .ok, st)

/-- `get_fd(display)`: `(ok, connection.as_fd().as_raw_fd())` when the connection
is present, otherwise `Err(Error::Term("Connection not found"))`. -/
def get_fd (h : Nat) (st : BridgeState) : Except NifError (Atom × Int) :=
  match tblGet h st.connections with
  | some c => .ok (.ok, c.fd)
  | none => .error (.term "Connection not found")

/-- `roundtrip(display)`: like `flush_events`, but the blocking roundtrip also
receives the events the server delivers during the call (`incoming`); all of them
are dispatched into a freshly created empty `globals` map that is discarded when
the call returns.  Absent connection: returns `ok` without error. -/
def roundtrip (h : Nat) (incoming : List RegistryEvent) (rtErr : Option String)
    (st : BridgeState) : Except NifError Atom × BridgeState :=
  match tblGet h st.connections with
  | some c =>
    match rtErr with
    | some e => (.error (toNifError (.protocolError e)), st)
    | none =>
      let _dispatched : Snapshot := (c.pending ++ incoming).foldl applyEvent []
      (.ok .ok,
        { st with connections := tblInsert h { c with pending := [] } st.connections })
  | none => (.ok .ok, st)

/-- `create_surface(display)`: the placeholder implementation — allocates
`surface_id = get_next_id()` and returns `Ok(SurfaceResource { surface_id })`
without consulting the registry or creating any native object. -/
def create_surface (_display : Nat) (st : BridgeState) :
    Except NifError SurfaceResource × BridgeState :=
  let ids := get_next_id st.nextId
  (.ok { surfaceId := ids.1 }, { st with nextId := ids.2 })

/-- `get_registry(display)`: when the connection is present, binds a registry on
its queue, creates a freshly allocated empty `globals` cell, allocates
`registry_id = get_next_id()`, stores the native registry in `REGISTRIES`, and
returns `RegistryResource { registry_id, globals }`.  Absent connection:
`Err(Error::Term("Connection not found"))`. -/
def get_registry (h : Nat) (st : BridgeState) :
    Except NifError RegistryResource × BridgeState :=
  match tblGet h st.connections with
  | some _ =>
    let cell := st.nextCell
    let ids := get_next_id st.nextId
    (.ok { registryId := ids.1, globalsRef := cell },
      { st with
        nextId := ids.2,
        nextCell := cell + 1,
        snapshots := st.snapshots ++ [(cell, [])],
        registries := ids.1 :: st.registries })
  | none => (.error (.term "Connection not found"), st)

/-- The tuple view `(*id, info.interface.clone(), info.version)` used by
`list_globals`. -/
def snapToList (s : Snapshot) : List (Nat × String × Nat) :=
  s.map fun p => (p.1, p.2.interface, p.2.version)

/-- `list_globals(registry)`: locks the resource's `globals` cell and returns
`(ok, copied list of (name, interface, version))`. -/
def list_globals (r : RegistryResource) (st : BridgeState) :
    Except NifError (Atom × List (Nat × String × Nat)) :=
  .ok (.ok, snapToList ((tblGet r.globalsRef st.snapshots).getD []))

/-- `bind_global(registry, id, interface, version)`: always
`Err(Error::Term("bind_global not yet implemented"))`. -/
def bind_global (_registry : RegistryResource) (_id : Nat) (_iface : String)
    (_version : Nat) : Except NifError Atom :=
  .error (.term "bind_global not yet implemented")

/-! ## Shared concrete states and oracles used by the theorems below -/

/-- A native environment in which connecting succeeds, the initial roundtrip
succeeds, the descriptor is 7, and the server advertises one global
`(1, "wl_compositor", 4)` during the initial roundtrip. -/
def demoEnv : ConnEnv :=
  { connectResult := .ok (), roundtripResult := .ok (), fd := 7,
    initialEvents := [.global 1 "wl_compositor" 4] }

/-- The process state after one successful `connect` in `demoEnv`. -/
def connectedState : BridgeState := (connect_impl none demoEnv initState).2

/-- The process state after disconnecting that connection (handle 1 is stale). -/
def staleState : BridgeState := (disconnect 1 connectedState).2

/-- A native environment in which connecting succeeds but the initial roundtrip
fails with cause `"x"`. -/
def failRtEnv : ConnEnv :=
  { connectResult := .ok (), roundtripResult := .error "x", fd := 7,
    initialEvents := [] }

/-- A native environment in which the endpoint cannot be reached. -/
def failConnEnv : ConnEnv :=
  { connectResult := .error "no socket", roundtripResult := .ok (), fd := 0,
    initialEvents := [] }

/-! ## Association-table lemmas -/

/-- Every entry surviving `tblRemove k` has a key different from `k`. -/
theorem mem_tblRemove_ne {α : Type} {k : Nat} {p : Nat × α} :
    ∀ {t : List (Nat × α)}, p ∈ tblRemove k t → p.1 ≠ k := by
  intro t
  induction t with
  | nil => intro hp; simp [tblRemove] at hp
  | cons a t ih =>
    intro hp
    by_cases ha : a.1 = k
    · rw [tblRemove, if_pos ha] at hp
      exact ih hp
    · rw [tblRemove, if_neg ha] at hp
      rcases List.mem_cons.mp hp with h | h
      · rw [h]; exact ha
      · exact ih h

/-- Removing a key that is absent leaves the table unchanged. -/
theorem tblGet_none_tblRemove {α : Type} {k : Nat} :
    ∀ {t : List (Nat × α)}, tblGet k t = none → tblRemove k t = t := by
  intro t
  induction t with
  | nil => intro _; rfl
  | cons a t ih =>
    intro h
    rw [tblGet] at h
    by_cases ha : a.1 = k
    · rw [if_pos ha] at h; exact absurd h (by simp)
    · rw [if_neg ha] at h
      rw [tblRemove, if_neg ha, ih h]

/-- `tblRemove k` leaves no entry with key `k` visible to `tblGet`. -/
theorem tblGet_tblRemove_self {α : Type} (k : Nat) :
    ∀ t : List (Nat × α), tblGet k (tblRemove k t) = none := by
  intro t
  induction t with
  | nil => rfl
  | cons a t ih =>
    by_cases ha : a.1 = k
    · rw [tblRemove, if_pos ha]; exact ih
    · rw [tblRemove, if_neg ha, tblGet, if_neg ha]; exact ih

/-- Removing the same key twice is the same as removing it once. -/
theorem tblRemove_idem {α : Type} (k : Nat) (t : List (Nat × α)) :
    tblRemove k (tblRemove k t) = tblRemove k t :=
  tblGet_none_tblRemove (tblGet_tblRemove_self k t)

/-! ## Claim theorems -/

/-- C10: for every display name string, `connect_to_display name` behaves
identically to `connect`: both arms of `connect_impl`'s match on the optional
name call `Connection::connect_to_env()`, so the supplied name is ignored and the
connection is always resolved from the ambient environment configuration. -/
theorem connect_to_display_ignores_name (name : String) (env : ConnEnv)
    (st : BridgeState) : connect_to_display name env st = connect env st := rfl

/-- C7: `disconnect` is idempotent — it returns `ok` on any handle, returns `ok`
again on the second call, and the second call leaves the state exactly where the
first call left it (removing an already-removed handle is a silent no-op). -/
theorem disconnect_idempotent (h : Nat) (st : BridgeState) :
    (disconnect h st).1 = .ok .ok ∧
    (disconnect h (disconnect h st).2).1 = .ok .ok ∧
    (disconnect h (disconnect h st).2).2 = (disconnect h st).2 :=
  ⟨rfl, rfl, by simp [disconnect, tblRemove_idem]⟩

/-- C2 (code bug): `create_surface` does NOT fail with an `Unimplemented`-tagged
error — the placeholder allocates a fresh id and returns a success carrying a
`SurfaceResource` with no backing native object, while `bind_global` does return
its not-yet-implemented failure. -/
theorem create_surface_returns_handle_bug :
    (create_surface 1 initState).1 = .ok { surfaceId := 1 } ∧
    bind_global { registryId := 2, globalsRef := 0 } 1 "wl_compositor" 4 =
      .error (.term "bind_global not yet implemented") :=
  ⟨rfl, rfl⟩

/-- C3 (code bug): after `disconnect 1`, `is_connected` reports `false` and
`get_fd` fails, but `flush_events` and `roundtrip` on the stale handle return
`ok` silently instead of a `ResourceNotFound` failure (the `if let` in the source
falls through to `Ok(atoms::ok())` when the connection is absent). -/
theorem stale_handle_silent_success_bug :
    (disconnect 1 connectedState).1 = .ok .ok ∧
    is_connected 1 staleState = .ok (.ok, false) ∧
    (flush_events 1 none staleState).1 = .ok .ok ∧
    (roundtrip 1 [] none staleState).1 = .ok .ok ∧
    get_fd 1 staleState = .error (.term "Connection not found") :=
  ⟨rfl, rfl, rfl, rfl, rfl⟩

/-- C1 (code bug): in an environment where the server advertises the global
`(1, "wl_compositor", 4)`, `connect` succeeds (handle 1), `get_registry`
succeeds — but `list_globals` on the freshly obtained registry returns the EMPTY
list: `get_registry` installs a brand-new empty snapshot cell, and the globals
gathered by the initial roundtrip inside `connect_impl` were discarded. -/
theorem fresh_registry_globals_empty_bug :
    (connect_impl none demoEnv initState).1 = .ok 1 ∧
    (get_registry 1 connectedState).1 = .ok { registryId := 2, globalsRef := 0 } ∧
    list_globals { registryId := 2, globalsRef := 0 } (get_registry 1 connectedState).2 =
      .ok (.ok, []) :=
  ⟨rfl, rfl, rfl⟩

/-- C6 counterexample: on a stale handle `get_fd` does fail, but with the error
term `"Connection not found"`, which is not the `ResourceNotFound` variant of the
source's error enum (that variant surfaces as `"Resource not found"`). -/
theorem get_fd_not_resourceNotFound_cex :
    get_fd 5 initState = .error (.term "Connection not found") ∧
    NifError.term "Connection not found" ≠ toNifError .resourceNotFound :=
  ⟨rfl, by decide⟩

/-- C6 (amended): `get_fd` returns the connection's raw descriptor with an `ok`
tag when the handle is present in `CONNECTIONS`, and fails — with the ad-hoc
`"Connection not found"` error term, not the `ResourceNotFound` variant — when
the handle is absent; it never silently succeeds on a stale handle. -/
theorem get_fd_contract (h : Nat) (st : BridgeState) :
    (∀ c, tblGet h st.connections = some c → get_fd h st = .ok (.ok, c.fd)) ∧
    (tblGet h st.connections = none →
      get_fd h st = .error (.term "Connection not found")) := by
  constructor
  · intro c hc; simp [get_fd, hc]
  · intro hc; simp [get_fd, hc]

/-- C6 witness: the contract evaluated on the connected state (handle 1, fd 7)
and on a stale handle (5). -/
theorem get_fd_contract_witness :
    get_fd 1 connectedState = .ok (.ok, 7) ∧
    get_fd 5 connectedState = .error (.term "Connection not found") :=
  ⟨(get_fd_contract 1 connectedState).1 { fd := 7, pending := [] } rfl,
   (get_fd_contract 5 connectedState).2 rfl⟩

/-- C4: delivering a global-announced event for name `n` followed by a
global-retracted event for `n` yields a snapshot whose `list_globals` view has no
entry for `n`; and retracting a name that was never announced leaves the snapshot
exactly unchanged (and produces no error — `applyEvent` is total). -/
theorem announce_retract_consistency (s : Snapshot) (n : Nat) (i : String)
    (v : Nat) :
    (∀ e ∈ snapToList (applyEvent (applyEvent s (.global n i v)) (.globalRemove n)),
      e.1 ≠ n) ∧
    (tblGet n s = none → applyEvent s (.globalRemove n) = s) := by
  constructor
  · intro e he
    simp only [snapToList, List.mem_map] at he
    obtain ⟨p, hp, rfl⟩ := he
    have hp2 : p ∈ tblRemove n (applyEvent s (.global n i v)) := hp
    show p.1 ≠ n
    exact mem_tblRemove_ne hp2
  · intro h
    exact tblGet_none_tblRemove h

/-- C4 witness: retracting the never-announced name 42 from the snapshot
`[(3, wl_shm, 1)]` leaves it exactly unchanged. -/
theorem announce_retract_consistency_witness :
    tblGet 42 ([(3, { interface := "wl_shm", version := 1 })] : Snapshot) = none ∧
    applyEvent ([(3, { interface := "wl_shm", version := 1 })] : Snapshot)
      (.globalRemove 42) = [(3, { interface := "wl_shm", version := 1 })] :=
  ⟨by decide,
   (announce_retract_consistency [(3, { interface := "wl_shm", version := 1 })]
      42 "wl_output" 2).2 (by decide)⟩

/-- C9: `flush_events` and `roundtrip` dispatch into a freshly created, empty
`AppData` snapshot that is discarded on return, so — whatever events the server
delivers — neither call ever touches the snapshot heap, and `list_globals` on any
`RegistryResource` reads the same value before and after either call. -/
theorem dispatch_preserves_registry_snapshots (h : Nat) (dispatchErr : Option String)
    (incoming : List RegistryEvent) (rtErr : Option String) (st : BridgeState) :
    (flush_events h dispatchErr st).2.snapshots = st.snapshots ∧
    (roundtrip h incoming rtErr st).2.snapshots = st.snapshots ∧
    (∀ r, list_globals r (flush_events h dispatchErr st).2 = list_globals r st) ∧
    (∀ r, list_globals r (roundtrip h incoming rtErr st).2 = list_globals r st) := by
  have hf : (flush_events h dispatchErr st).2.snapshots = st.snapshots := by
    rcases hval : tblGet h st.connections with _ | c <;>
      rcases dispatchErr with _ | e <;> simp [flush_events, hval]
  have hr : (roundtrip h incoming rtErr st).2.snapshots = st.snapshots := by
    rcases hval : tblGet h st.connections with _ | c <;>
      rcases rtErr with _ | e <;> simp [roundtrip, hval]
  exact ⟨hf, hr, fun r => by simp [list_globals, hf], fun r => by simp [list_globals, hr]⟩

/-- The sequence of ids produced by `n` sequential `get_next_id()` calls starting
from counter value `s`. -/
def allocSeq (s : Nat) : Nat → List Nat
  | 0 => []
  | k + 1 => (get_next_id s).1 :: allocSeq (get_next_id s).2 k

/-- Below the `u32` wrap the allocator enumerates consecutive integers. -/
theorem allocSeq_eq_range (n : Nat) :
    ∀ s : Nat, s + n ≤ u32Mod → allocSeq s n = List.range' s n := by
  induction n with
  | zero => intro s _; rfl
  | succ k ih =>
    intro s hs
    have hs1 : s + 1 ≤ u32Mod := by omega
    rcases Nat.lt_or_eq_of_le hs1 with hlt | heq
    · have hmod : (s + 1) % u32Mod = s + 1 := Nat.mod_eq_of_lt hlt
      show s :: allocSeq ((s + 1) % u32Mod) k = s :: List.range' (s + 1) k
      rw [hmod, ih (s + 1) (by omega)]
    · have hk : k = 0 := by omega
      subst hk
      rfl

/-- C8: absent `u32` overflow (`s + n ≤ 2 ^ 32`), `n` sequential `get_next_id()`
calls return pairwise-distinct, strictly increasing identifiers. -/
theorem allocate_handles_distinct_increasing (s n : Nat) (hbound : s + n ≤ u32Mod) :
    (allocSeq s n).Pairwise (· < ·) := by
  rw [allocSeq_eq_range n s hbound]
  exact List.pairwise_lt_range' s n

/-- C8 witness: five allocations starting from the initial counter value 1. -/
theorem allocate_handles_distinct_increasing_witness :
    1 + 5 ≤ u32Mod ∧ (allocSeq 1 5).Pairwise (· < ·) :=
  ⟨by decide, allocate_handles_distinct_increasing 1 5 (by decide)⟩

/-- C5 counterexample: when the endpoint is reachable but the initial roundtrip
fails (cause `"x"`), `connect` fails with the `ProtocolError` message — an
unsuccessful `connect` that is not `ConnectionFailed`-tagged (no cause string `s`
makes its message equal `"Connection failed: " ++ s`). -/
theorem connect_not_only_connectionFailed_cex :
    (connect_impl none failRtEnv initState).1 = .error (.term "Protocol error: x") ∧
    ¬ ∃ s, NifError.term "Protocol error: x" = toNifError (.connectionFailed s) := by
  refine ⟨rfl, ?_⟩
  rintro ⟨s, hs⟩
  simp only [toNifError, WaylandError.message, NifError.term.injEq] at hs
  have hl := congrArg String.length hs
  rw [String.length_append] at hl
  have h17 : "Protocol error: x".length = 17 := rfl
  have h19 : "Connection failed: ".length = 19 := rfl
  rw [h17, h19] at hl
  omega

/-- C5 (amended): `connect_impl` fails with `ConnectionFailed` carrying the
underlying cause whenever the endpoint cannot be reached; when the endpoint is
reached but the initial roundtrip fails it fails with `ProtocolError` carrying
that cause; and these two are the only failure modes at the boundary. -/
theorem connect_failure_modes (name : Option String) (env : ConnEnv)
    (st : BridgeState) :
    (∀ e, env.connectResult = .error e →
      (connect_impl name env st).1 = .error (toNifError (.connectionFailed e))) ∧
    (∀ e, env.connectResult = .ok () → env.roundtripResult = .error e →
      (connect_impl name env st).1 = .error (toNifError (.protocolError e))) ∧
    (∀ err, (connect_impl name env st).1 = .error err →
      (∃ e, err = toNifError (.connectionFailed e)) ∨
      (∃ e, err = toNifError (.protocolError e))) := by
  refine ⟨?_, ?_, ?_⟩
  · intro e he
    cases name <;> simp [connect_impl, he]
  · intro e hc he
    cases name <;> simp [connect_impl, hc, he]
  · intro err herr
    rcases hc : env.connectResult with ec | uc <;>
      rcases hr : env.roundtripResult with er | ur <;>
      cases name <;> simp [connect_impl, hc, hr] at herr
    all_goals first
      | exact Or.inl ⟨ec, herr.symm⟩
      | exact Or.inr ⟨er, herr.symm⟩

/-- C5 witness: an unreachable endpoint (cause `"no socket"`) yields
`ConnectionFailed` carrying that cause. -/
theorem connect_failure_modes_witness :
    failConnEnv.connectResult = .error "no socket" ∧
    (connect_impl none failConnEnv initState).1 =
      .error (toNifError (.connectionFailed "no socket")) :=
  ⟨rfl, (connect_failure_modes none failConnEnv initState).1 "no socket" rfl⟩
